import Mathlib

/-!
# AutoTagger — verification of the tag read/normalize/write cycle

Shallow embedding of `src/autotagger.py` (class `AutoTagger`).  The ID3
container is modelled with the dict semantics of the mutagen library the
program calls into: every frame is stored under its `HashKey` (the frame id
for plain text frames, `"APIC:" ++ desc` for attached pictures), `get`/`in`
/`[]` are exact-key lookups, `add` replaces the entry with the same key, and
`delall key` deletes the exact key if present and otherwise every key with
prefix `key ++ ":"`.  Strings are ASCII-faithful; bytes are `List Nat`.
-/

namespace AutoTagger

/-- One ID3 frame.  Text frames (TPE1, TALB, TIT2, TDRC, TRCK, TCON) carry a
single string value; `apic` is an attached picture (mime, picture type,
description, raw bytes). -/
inductive Frame where
  | text (id : String) (value : String)
  | apic (mime : String) (picType : Nat) (desc : String) (data : List Nat)
deriving DecidableEq

/-- mutagen `Frame.HashKey`: plain text frames key by their frame id; APIC
keys by `"APIC:" ++ desc`. -/
def Frame.hashKey : Frame → String
  | .text id _ => id
  | .apic _ _ desc _ => "APIC:" ++ desc

/-- The ID3 container: frames keyed by `Frame.hashKey` (dict semantics; at
most one frame per key in every reachable container). -/
abbrev Tags := List Frame

/-- Keys a real mutagen container can hold: no text frame has id `"APIC"`
(that id belongs to the picture class) nor an `"APIC:"`-prefixed id (text
frame ids are bare 4-char ids). -/
def goodFrame : Frame → Bool
  | .text id _ => id ≠ "APIC" && !("APIC:".data.isPrefixOf id.data)
  | .apic _ _ _ _ => true

def WFtags (t : Tags) : Bool := t.all goodFrame

/-- Dict lookup by exact HashKey (mutagen `__getitem__` / `get` / `in`). -/
def lookupKey (t : Tags) (k : String) : Option Frame :=
  t.find? (fun f => f.hashKey == k)

def hasKey (t : Tags) (k : String) : Bool :=
  t.any (fun f => f.hashKey == k)

/-- Dict `self[frame.HashKey] = frame` (mutagen `ID3.add`): replace the entry
with the same HashKey, else append. -/
def setKey (t : Tags) (f : Frame) : Tags :=
  if hasKey t f.hashKey then
    t.map (fun g => if g.hashKey == f.hashKey then f else g)
  else t ++ [f]

/-- mutagen `ID3.delall(key)`: delete the exact key if present, otherwise
every key starting with `key ++ ":"`. -/
def delall (t : Tags) (key : String) : Tags :=
  if hasKey t key then t.filter (fun f => f.hashKey != key)
  else t.filter (fun f => !((key ++ ":").data.isPrefixOf f.hashKey.data))

/-- The leading 4-digit sequence of a string, when the string starts with
four digits (`re.match(r'^(\d{4})', raw)`). -/
def year4? (raw : String) : Option String :=
  match raw.data with
  | a :: b :: c :: d :: _ =>
    if a.isDigit && b.isDigit && c.isDigit && d.isDigit then
      some (String.mk [a, b, c, d])
    else none
  | _ => none

/-- `match.group(1) if match else raw` on the TDRC value (autotagger.py
lines 276-278). -/
def extractYear (raw : String) : String := (year4? raw).getD raw

/-- `get_tag` inside `AutoTagger.load_tags` (lines 267-279): first value of
the frame, empty when absent, with the year special case for TDRC. -/
def get_tag (t : Tags) (tagKey : String) : String :=
  match lookupKey t tagKey with
  | some (Frame.text _ v) => if tagKey == "TDRC" then extractYear v else v
  | _ => ""

/-- Cover read in `load_tags` (lines 288-298): `if "APIC:" in audio` — an
exact-key lookup of `"APIC:"`, i.e. only a picture with empty description. -/
def read_cover (t : Tags) : Option (List Nat) :=
  match lookupKey t "APIC:" with
  | some (Frame.apic _ _ _ data) => some data
  | _ => none

/-- The full record edited by the UI: six text fields plus optional cover
image bytes. -/
structure TagSet where
  artist : String
  album : String
  title : String
  year : String
  track : String
  genre : String
  cover : Option (List Nat)
deriving DecidableEq

/-- `AutoTagger.load_tags` (lines 258-298) as a function of the container. -/
def load_tags (t : Tags) : TagSet :=
  { artist := get_tag t "TPE1"
    album := get_tag t "TALB"
    title := get_tag t "TIT2"
    year := get_tag t "TDRC"
    track := get_tag t "TRCK"
    genre := get_tag t "TCON"
    cover := read_cover t }

def managedIds : List String := ["TPE1", "TALB", "TIT2", "TDRC", "TRCK", "TCON", "APIC"]

/-- The clear loop of `_save_single_file` (lines 420-422). -/
def clearTags (t : Tags) : Tags := managedIds.foldl delall t

/-- `if self.<field>.text(): audio.tags.add(<Frame>(encoding=3, text=...))`. -/
def addText (t : Tags) (id v : String) : Tags :=
  if v ≠ "" then setKey t (Frame.text id v) else t

def pngSignature : List Nat := [0x89, 0x50, 0x4E, 0x47, 0x0D, 0x0A, 0x1A, 0x0A]

/-- Mime inference for the APIC frame (lines 440-442). -/
def inferMime (bytes : List Nat) : String :=
  if pngSignature.isPrefixOf bytes then "image/png" else "image/jpeg"

/-- The six `if self.<field>.text(): audio.tags.add(...)` statements of
`_save_single_file` (lines 424-436), run after the clear loop. -/
def write_text_tags (t : Tags) (T : TagSet) : Tags :=
  addText (addText (addText (addText (addText (addText
    (clearTags t) "TPE1" T.artist) "TALB" T.album) "TIT2" T.title)
    "TDRC" T.year) "TRCK" T.track) "TCON" T.genre

/-- The tag-mutation part of `AutoTagger._save_single_file` (lines 420-449):
clear the seven managed kinds, add back the non-empty text fields, then the
picture frame with `desc='Cover'` when `album_art_bytes` is truthy. -/
def write_tags (t : Tags) (T : TagSet) : Tags :=
  match T.cover with
  | some bytes =>
    if bytes ≠ [] then
      setKey (write_text_tags t T) (Frame.apic (inferMime bytes) 3 "Cover" bytes)
    else write_text_tags t T
  | none => write_text_tags t T

/-! ## Filename fallback parse -/

/-- Characters removed by Python `str.strip()` (ASCII whitespace). -/
def isPySpace (c : Char) : Bool :=
  c = ' ' || c = '\t' || c = '\n' || c = '\r' || c = '\x0b' || c = '\x0c'

/-- Python `s.strip()`. -/
def pyStrip (cs : List Char) : List Char :=
  ((cs.dropWhile isPySpace).reverse.dropWhile isPySpace).reverse

def pyStripStr (s : String) : String := String.mk (pyStrip s.data)

/-- `os.path.basename`: everything after the last `'/'`. -/
def basename (p : String) : String :=
  String.mk ((p.data.reverse.takeWhile (· != '/')).reverse)

/-- `os.path.splitext(...)[0]` on a name with no separator: cut at the last
dot unless every character before it is a dot. -/
def stripExt (cs : List Char) : List Char :=
  match cs.reverse.findIdx? (· == '.') with
  | none => cs
  | some j =>
    let dotIdx := cs.length - 1 - j
    if (cs.take dotIdx).any (· != '.') then cs.take dotIdx else cs

/-- The separator `" - "` of `parse_filename`. -/
def sepChars : List Char := [' ', '-', ' ']

/-- `basename.split(" - ", 1)` when `" - " in basename`: split at the first
occurrence of the separator. -/
def findSplit : List Char → Option (List Char × List Char)
  | [] => none
  | c :: rest =>
    if sepChars.isPrefixOf (c :: rest) then some ([], rest.drop 2)
    else
      match findSplit rest with
      | some (l, r) => some (c :: l, r)
      | none => none

/-- `AutoTagger.parse_filename` (lines 301-306). -/
def parse_filename (filepath : String) : String × String :=
  let bn := stripExt (basename filepath).data
  match findSplit bn with
  | some (l, r) => (String.mk (pyStrip l), String.mk (pyStrip r))
  | none => ("", String.mk bn)

/-! ## Metadata lookup client

The two HTTP calls are modelled as explicit response parameters; the second
component of each result counts the network requests actually issued. -/

/-- Python truthiness of an optional string (`if self.current_folder:`). -/
def truthy : Option String → Bool
  | none => false
  | some s => s != ""

/-- One release attached to a recording in the search response
(`releases[0].title` / `releases[0].date`, both optional). -/
structure MBRelease where
  rtitle : Option String
  rdate : Option String
deriving DecidableEq

/-- One recording in the search response. -/
structure MBRecording where
  artistCredit : List String
  rtitle : String
  releases : List MBRelease
deriving DecidableEq

/-- Recording search response: transport/parse failure, or the `recordings`
array. -/
inductive RecResp where
  | err (msg : String)
  | ok (recordings : List MBRecording)
deriving DecidableEq

/-- The five field values written back by `auto_fetch_info` on success. -/
structure NewFields where
  artist : String
  album : String
  title : String
  year : String
  track : String
deriving DecidableEq

/-- Lines 330-349 of `auto_fetch_info`: new field values computed from the
top recording, starting from the pre-lookup UI values. -/
def applyRecording (artist album0 year0 track0 : String) (rec : MBRecording) :
    NewFields :=
  let newArtist :=
    match rec.artistCredit with
    | [] => artist
    | n :: _ => n
  let base : NewFields := ⟨newArtist, album0, rec.rtitle, year0, track0⟩
  match rec.releases with
  | [] => base
  | rel :: _ =>
    let album1 := rel.rtitle.getD album0
    let year1 :=
      match rel.rdate with
      | none => year0
      | some d => (year4? d).getD year0
    { base with album := album1, year := year1 }

inductive FetchInfoOutcome where
  | noFile
  | notEnoughInfo
  | fetchError (msg : String)
  | noMatch
  | updated (fields : NewFields)
deriving DecidableEq

/-- Artist/title used for the query (lines 311-316): stripped UI fields,
falling back per-field to the filename parse when empty. -/
def resolveQuery (file artist0 title0 : String) : String × String :=
  let artist := pyStripStr artist0
  let title := pyStripStr title0
  if !(artist != "" && title != "") then
    let p := parse_filename file
    (if artist == "" then p.1 else artist, if title == "" then p.2 else title)
  else (artist, title)

/-- `AutoTagger.auto_fetch_info` (lines 308-353). -/
def auto_fetch_info (currentFile : Option String)
    (artist0 title0 album0 year0 track0 : String) (resp : RecResp) :
    FetchInfoOutcome × Nat :=
  if !(truthy currentFile) then (.noFile, 0)
  else
    let q := resolveQuery (currentFile.getD "") artist0 title0
    if q.1 == "" || q.2 == "" then (.notEnoughInfo, 0)
    else
      match resp with
      | .err m => (.fetchError m, 1)
      | .ok recs =>
        match recs with
        | [] => (.noMatch, 1)
        | rec :: _ => (.updated (applyRecording q.1 album0 year0 track0 rec), 1)

/-- Release search response (`releases` array of ids). -/
inductive RelResp where
  | err (msg : String)
  | ok (releaseIds : List String)
deriving DecidableEq

/-- Cover fetch response: transport failure, or an HTTP status with body. -/
inductive CoverResp where
  | err (msg : String)
  | status (code : Nat) (body : List Nat)
deriving DecidableEq

inductive ArtOutcome where
  | folderMode
  | missingInfo
  | fetchError (msg : String)
  | notFoundRelease
  | noArt
  | fetched (bytes : List Nat)
deriving DecidableEq

/-- `AutoTagger.fetch_album_art` (lines 355-387). -/
def fetch_album_art (currentFolder : Option String) (artist0 album0 : String)
    (searchResp : RelResp) (coverResp : CoverResp) : ArtOutcome × Nat :=
  if truthy currentFolder then (.folderMode, 0)
  else
    let artist := pyStripStr artist0
    let album := pyStripStr album0
    if artist == "" || album == "" then (.missingInfo, 0)
    else
      match searchResp with
      | .err m => (.fetchError m, 1)
      | .ok rels =>
        match rels with
        | [] => (.notFoundRelease, 1)
        | _mbid :: _ =>
          match coverResp with
          | .err m => (.fetchError m, 2)
          | .status code body =>
            if code == 200 then (.fetched body, 2) else (.noArt, 2)

/-! ## Batch save -/

/-- One file of the folder, with its environment-determined failure modes
(open raises / `audio.save` raises). -/
structure BatchFile where
  name : String
  failsOpen : Bool
  failsSave : Bool
deriving DecidableEq

inductive SaveOutcome where
  | skipped (name : String)
  | saveError (name : String)
  | saved (name : String)
deriving DecidableEq

/-- Per-file behaviour of `_save_single_file` (lines 409-457): an open
failure is printed and the function returns; a save failure shows an error
dialog; both are caught inside the function, so neither propagates. -/
def save_single_file (f : BatchFile) : SaveOutcome :=
  if f.failsOpen then .skipped f.name
  else if f.failsSave then .saveError f.name
  else .saved f.name

/-- Folder branch of `save_tags` (lines 394-405): every listed file is
processed in order; afterwards the status line reports
`"Saved tags for {len(mp3_files)} files!"` — the second component is that
count.  `none` models the empty-folder early return. -/
def save_tags_folder (files : List BatchFile) :
    Option (List SaveOutcome × Nat) :=
  if files.isEmpty then none
  else some (files.map save_single_file, files.length)

/-! ## ID3 version selection -/

/-- `on_id3_version_change` (lines 190-191): `self.id3_version = [1,3,4][index]`. -/
def on_id3_version_change (index : Fin 3) : Nat :=
  [1, 3, 4].get ⟨index.val, index.isLt⟩

/-- The `v1` and `v2_version` arguments passed to `audio.save`
(lines 451-455). -/
def saveVersionArgs (id3_version : Nat) : Nat × Nat :=
  ((if id3_version == 1 then 1 else 0),
   (if id3_version != 1 then id3_version else 3))

/-! ## Container lemmas -/

theorem mem_of_mem_delall {t : Tags} {k : String} {f : Frame}
    (h : f ∈ delall t k) : f ∈ t := by
  unfold delall at h
  split at h <;> exact (List.mem_filter.mp h).1

theorem WFtags_delall {t : Tags} (k : String) (h : WFtags t = true) :
    WFtags (delall t k) = true := by
  unfold WFtags at h ⊢
  rw [List.all_eq_true] at h ⊢
  exact fun f hf => h f (mem_of_mem_delall hf)

theorem WFtags_foldl_delall (keys : List String) (t : Tags)
    (h : WFtags t = true) : WFtags (keys.foldl delall t) = true := by
  induction keys generalizing t with
  | nil => exact h
  | cons a as ih => exact ih _ (WFtags_delall a h)

theorem lookupKey_eq_none_of (t : Tags) (k : String)
    (h : ∀ f ∈ t, (f.hashKey == k) = false) : lookupKey t k = none := by
  unfold lookupKey
  rw [List.find?_eq_none]
  intro f hf
  simp [h f hf]

theorem forall_of_hasKey_false {t : Tags} {k : String}
    (h : hasKey t k = false) : ∀ f ∈ t, (f.hashKey == k) = false := by
  unfold hasKey at h
  rw [List.any_eq_false] at h
  intro f hf
  simpa using h f hf

theorem lookupKey_delall_self (t : Tags) (k : String) :
    lookupKey (delall t k) k = none := by
  unfold delall
  split
  · apply lookupKey_eq_none_of
    intro f hf
    have h2 := (List.mem_filter.mp hf).2
    simpa [bne] using h2
  · next hkey =>
    apply lookupKey_eq_none_of
    intro f hf
    have hf1 := (List.mem_filter.mp hf).1
    exact forall_of_hasKey_false (by simpa using hkey) f hf1

theorem lookupKey_delall_of_none (t : Tags) (k k2 : String)
    (h : lookupKey t k = none) : lookupKey (delall t k2) k = none := by
  apply lookupKey_eq_none_of
  intro f hf
  unfold lookupKey at h
  rw [List.find?_eq_none] at h
  simpa using h f (mem_of_mem_delall hf)

theorem lookupKey_foldl_delall_of_none (keys : List String) (t : Tags)
    (k : String) (h : lookupKey t k = none) :
    lookupKey (keys.foldl delall t) k = none := by
  induction keys generalizing t with
  | nil => exact h
  | cons a as ih => exact ih _ (lookupKey_delall_of_none _ _ _ h)

theorem lookupKey_foldl_delall_mem (keys : List String) (t : Tags)
    (k : String) (h : k ∈ keys) :
    lookupKey (keys.foldl delall t) k = none := by
  induction keys generalizing t with
  | nil => cases h
  | cons a as ih =>
    rcases List.mem_cons.mp h with h | h
    · subst h
      exact lookupKey_foldl_delall_of_none as _ k (lookupKey_delall_self t k)
    · exact ih _ h

theorem find?_map_set (gs : Tags) (f : Frame) (k : String)
    (h : (f.hashKey == k) = false) :
    ((gs.map fun g => if g.hashKey == f.hashKey then f else g).find?
        fun g => g.hashKey == k)
      = gs.find? fun g => g.hashKey == k := by
  induction gs with
  | nil => rfl
  | cons g gs ih =>
    simp only [List.map_cons]
    by_cases hg : (g.hashKey == f.hashKey) = true
    · have hgk : (g.hashKey == k) = false := by rw [eq_of_beq hg]; exact h
      rw [if_pos hg,
        List.find?_cons_of_neg (p := fun x : Frame => x.hashKey == k) _ (by simp [h]),
        List.find?_cons_of_neg (p := fun x : Frame => x.hashKey == k) _ (by simp [hgk])]
      exact ih
    · rw [if_neg hg]
      by_cases hgk : (g.hashKey == k) = true
      · rw [List.find?_cons_of_pos (p := fun x : Frame => x.hashKey == k) _ hgk,
          List.find?_cons_of_pos (p := fun x : Frame => x.hashKey == k) _ hgk]
      · rw [List.find?_cons_of_neg (p := fun x : Frame => x.hashKey == k) _ hgk,
          List.find?_cons_of_neg (p := fun x : Frame => x.hashKey == k) _ hgk]
        exact ih

theorem find?_append_one (t : Tags) (f : Frame) (k : String)
    (h : (f.hashKey == k) = false) :
    ((t ++ [f]).find? fun g => g.hashKey == k)
      = t.find? fun g => g.hashKey == k := by
  induction t with
  | nil => simp [List.find?, h]
  | cons g gs ih =>
    by_cases hgk : (g.hashKey == k) = true
    · rw [List.cons_append,
        List.find?_cons_of_pos (p := fun x : Frame => x.hashKey == k) _ hgk,
        List.find?_cons_of_pos (p := fun x : Frame => x.hashKey == k) _ hgk]
    · rw [List.cons_append,
        List.find?_cons_of_neg (p := fun x : Frame => x.hashKey == k) _ hgk,
        List.find?_cons_of_neg (p := fun x : Frame => x.hashKey == k) _ hgk]
      exact ih

theorem lookupKey_setKey_ne (t : Tags) (f : Frame) (k : String)
    (h : (f.hashKey == k) = false) :
    lookupKey (setKey t f) k = lookupKey t k := by
  unfold setKey lookupKey
  split
  · exact find?_map_set t f k h
  · exact find?_append_one t f k h

theorem addText_empty (t : Tags) (id : String) : addText t id "" = t := by
  simp [addText]

theorem lookupKey_addText (t : Tags) (id v k : String) (h : id = k → v = "") :
    lookupKey (addText t id v) k = lookupKey t k := by
  by_cases hid : id = k
  · rw [h hid, addText_empty]
  · unfold addText
    split
    · exact lookupKey_setKey_ne t _ k (by simpa [Frame.hashKey] using hid)
    · rfl

theorem get_tag_of_none {t : Tags} {k : String} (h : lookupKey t k = none) :
    get_tag t k = "" := by
  simp [get_tag, h]

theorem read_cover_of_none {t : Tags} (h : lookupKey t "APIC:" = none) :
    read_cover t = none := by
  simp [read_cover, h]

theorem goodFrame_key_ne_APIC {f : Frame} (h : goodFrame f = true) :
    (f.hashKey == "APIC") = false := by
  cases f with
  | text id v =>
    unfold goodFrame at h
    rw [Bool.and_eq_true] at h
    have h1 : id ≠ "APIC" := of_decide_eq_true h.1
    simpa [Frame.hashKey] using h1
  | apic m ty d dt =>
    simp only [Frame.hashKey]
    rw [beq_eq_false_iff_ne]
    intro hEq
    have hlen : ("APIC:" ++ d).length = ("APIC" : String).length := by rw [hEq]
    rw [String.length_append] at hlen
    have h5 : ("APIC:" : String).length = 5 := rfl
    have h4 : ("APIC" : String).length = 4 := rfl
    omega

theorem hasKey_APIC_eq_false {t : Tags} (h : WFtags t = true) :
    hasKey t "APIC" = false := by
  unfold hasKey
  rw [List.any_eq_false]
  intro f hf
  unfold WFtags at h
  rw [List.all_eq_true] at h
  simp [goodFrame_key_ne_APIC (h f hf)]

theorem delall_APIC_filter {t : Tags} (hwf : WFtags t = true) :
    delall t "APIC"
      = t.filter fun f => !(("APIC" ++ ":").data.isPrefixOf f.hashKey.data) := by
  unfold delall
  rw [if_neg (by simp [hasKey_APIC_eq_false hwf])]

theorem apic_not_mem_delall_APIC {t : Tags} (hwf : WFtags t = true)
    (m : String) (ty : Nat) (d : String) (dt : List Nat) :
    Frame.apic m ty d dt ∉ delall t "APIC" := by
  rw [delall_APIC_filter hwf]
  intro hmem
  have h2 := (List.mem_filter.mp hmem).2
  have hpre : ("APIC" ++ ":").data.isPrefixOf
      (Frame.apic m ty d dt).hashKey.data = true := by
    rw [ List.isPrefixOf_iff_prefix]
    show ("APIC" ++ ":").data <+: ("APIC:" ++ d).data
    rw [String.data_append]
    exact List.prefix_append _ _
  rw [hpre] at h2
  simp at h2

theorem lookupKey_delall_APIC_cover {t : Tags} (hwf : WFtags t = true) :
    lookupKey (delall t "APIC") "APIC:" = none := by
  rw [delall_APIC_filter hwf]
  apply lookupKey_eq_none_of
  intro f hf
  have h2 := (List.mem_filter.mp hf).2
  rw [beq_eq_false_iff_ne]
  intro hEq
  rw [hEq] at h2
  have : ("APIC" ++ ":").data.isPrefixOf ("APIC:" : String).data = true := by
    rw [ List.isPrefixOf_iff_prefix]
    exact List.prefix_refl _
  rw [this] at h2
  simp at h2

def sixTextIds : List String := ["TPE1", "TALB", "TIT2", "TDRC", "TRCK", "TCON"]

theorem clearTags_eq (t : Tags) :
    clearTags t = delall (sixTextIds.foldl delall t) "APIC" := rfl

theorem lookupKey_clearTags_text (t : Tags) (k : String) (h : k ∈ sixTextIds) :
    lookupKey (clearTags t) k = none := by
  rw [clearTags_eq]
  exact lookupKey_delall_of_none _ _ _ (lookupKey_foldl_delall_mem _ _ _ h)

theorem lookupKey_clearTags_cover {t : Tags} (hwf : WFtags t = true) :
    lookupKey (clearTags t) "APIC:" = none := by
  rw [clearTags_eq]
  exact lookupKey_delall_APIC_cover (WFtags_foldl_delall _ _ hwf)

theorem apic_not_mem_clearTags {t : Tags} (hwf : WFtags t = true)
    (m : String) (ty : Nat) (d : String) (dt : List Nat) :
    Frame.apic m ty d dt ∉ clearTags t := by
  rw [clearTags_eq]
  exact apic_not_mem_delall_APIC (WFtags_foldl_delall _ _ hwf) m ty d dt

theorem lookupKey_write_tags_to_clear (t : Tags) (T : TagSet) (k : String)
    (h1 : "TPE1" = k → T.artist = "") (h2 : "TALB" = k → T.album = "")
    (h3 : "TIT2" = k → T.title = "") (h4 : "TDRC" = k → T.year = "")
    (h5 : "TRCK" = k → T.track = "") (h6 : "TCON" = k → T.genre = "")
    (h7 : (("APIC:" ++ "Cover" : String) == k) = false) :
    lookupKey (write_tags t T) k = lookupKey (clearTags t) k := by
  have step : lookupKey (write_text_tags t T) k = lookupKey (clearTags t) k := by
    unfold write_text_tags
    rw [lookupKey_addText _ _ _ _ h6, lookupKey_addText _ _ _ _ h5,
      lookupKey_addText _ _ _ _ h4, lookupKey_addText _ _ _ _ h3,
      lookupKey_addText _ _ _ _ h2, lookupKey_addText _ _ _ _ h1]
  unfold write_tags
  split
  · split
    · rw [lookupKey_setKey_ne _ _ _ (by simpa [Frame.hashKey] using h7)]
      exact step
    · exact step
  · exact step

/-! ## Claim theorems -/

def c1T : TagSet :=
  { artist := "Artist", album := "Album", title := "Title",
    year := "2003-05-12", track := "7", genre := "Rock", cover := some [1, 2, 3] }

/-- C1: the claimed Write-then-Read round trip holds for the six text fields
(with the year normalized to "2003") but FAILS for the cover image: Write
stores the picture under HashKey "APIC:Cover" (third conjunct) while Read
looks up the exact key "APIC:", so the cover comes back absent instead of
`some [1, 2, 3]` — refuting the round-trip claim at this input. -/
theorem c1_roundtrip_loses_cover :
    load_tags (write_tags [] c1T)
      = { artist := "Artist", album := "Album", title := "Title", year := "2003",
          track := "7", genre := "Rock", cover := none }
  ∧ (load_tags (write_tags [] c1T)).cover ≠ c1T.cover
  ∧ lookupKey (write_tags [] c1T) "APIC:Cover"
      = some (Frame.apic "image/jpeg" 3 "Cover" [1, 2, 3]) := by decide

/-- C2: writing a TagSet first clears all six managed text frame kinds and
every picture frame, then writes only the non-empty fields; consequently a
field left empty in the TagSet (or an absent cover) reads back empty no
matter what the container previously held — full-replace, not merge. -/
theorem c2_full_replace (t : Tags) (T : TagSet) (hwf : WFtags t = true) :
    (∀ k ∈ sixTextIds, lookupKey (clearTags t) k = none)
  ∧ (∀ m ty d dt, Frame.apic m ty d dt ∉ clearTags t)
  ∧ (T.artist = "" → (load_tags (write_tags t T)).artist = "")
  ∧ (T.album = "" → (load_tags (write_tags t T)).album = "")
  ∧ (T.title = "" → (load_tags (write_tags t T)).title = "")
  ∧ (T.year = "" → (load_tags (write_tags t T)).year = "")
  ∧ (T.track = "" → (load_tags (write_tags t T)).track = "")
  ∧ (T.genre = "" → (load_tags (write_tags t T)).genre = "")
  ∧ (T.cover = none → (load_tags (write_tags t T)).cover = none) := by
  refine ⟨fun k hk => lookupKey_clearTags_text t k hk,
    fun m ty d dt => apic_not_mem_clearTags hwf m ty d dt,
    ?_, ?_, ?_, ?_, ?_, ?_, ?_⟩
  · intro h
    exact get_tag_of_none ((lookupKey_write_tags_to_clear t T "TPE1"
      (fun _ => h) (fun hk => absurd hk (by decide)) (fun hk => absurd hk (by decide))
      (fun hk => absurd hk (by decide)) (fun hk => absurd hk (by decide))
      (fun hk => absurd hk (by decide)) (by decide)).trans
      (lookupKey_clearTags_text t "TPE1" (by decide)))
  · intro h
    exact get_tag_of_none ((lookupKey_write_tags_to_clear t T "TALB"
      (fun hk => absurd hk (by decide)) (fun _ => h) (fun hk => absurd hk (by decide))
      (fun hk => absurd hk (by decide)) (fun hk => absurd hk (by decide))
      (fun hk => absurd hk (by decide)) (by decide)).trans
      (lookupKey_clearTags_text t "TALB" (by decide)))
  · intro h
    exact get_tag_of_none ((lookupKey_write_tags_to_clear t T "TIT2"
      (fun hk => absurd hk (by decide)) (fun hk => absurd hk (by decide)) (fun _ => h)
      (fun hk => absurd hk (by decide)) (fun hk => absurd hk (by decide))
      (fun hk => absurd hk (by decide)) (by decide)).trans
      (lookupKey_clearTags_text t "TIT2" (by decide)))
  · intro h
    exact get_tag_of_none ((lookupKey_write_tags_to_clear t T "TDRC"
      (fun hk => absurd hk (by decide)) (fun hk => absurd hk (by decide))
      (fun hk => absurd hk (by decide)) (fun _ => h)
      (fun hk => absurd hk (by decide)) (fun hk => absurd hk (by decide))
      (by decide)).trans
      (lookupKey_clearTags_text t "TDRC" (by decide)))
  · intro h
    exact get_tag_of_none ((lookupKey_write_tags_to_clear t T "TRCK"
      (fun hk => absurd hk (by decide)) (fun hk => absurd hk (by decide))
      (fun hk => absurd hk (by decide)) (fun hk => absurd hk (by decide))
      (fun _ => h) (fun hk => absurd hk (by decide)) (by decide)).trans
      (lookupKey_clearTags_text t "TRCK" (by decide)))
  · intro h
    exact get_tag_of_none ((lookupKey_write_tags_to_clear t T "TCON"
      (fun hk => absurd hk (by decide)) (fun hk => absurd hk (by decide))
      (fun hk => absurd hk (by decide)) (fun hk => absurd hk (by decide))
      (fun hk => absurd hk (by decide)) (fun _ => h) (by decide)).trans
      (lookupKey_clearTags_text t "TCON" (by decide)))
  · intro hcov
    have hcl : lookupKey (write_tags t T) "APIC:" = none :=
      (lookupKey_write_tags_to_clear t T "APIC:"
        (fun hk => absurd hk (by decide)) (fun hk => absurd hk (by decide))
        (fun hk => absurd hk (by decide)) (fun hk => absurd hk (by decide))
        (fun hk => absurd hk (by decide)) (fun hk => absurd hk (by decide))
        (by decide)).trans (lookupKey_clearTags_cover hwf)
    exact read_cover_of_none hcl

def c2t0 : Tags :=
  [Frame.text "TPE1" "Old Artist", Frame.text "TDRC" "1999-12-31",
   Frame.apic "image/jpeg" 3 "Cover" [9, 9]]

def c2T0 : TagSet :=
  { artist := "", album := "", title := "NewTitle",
    year := "", track := "", genre := "", cover := none }

/-- Witness for C2 at a container that previously held artist, year and
cover values, written with a TagSet leaving those empty. -/
theorem c2_full_replace_witness :
    (load_tags (write_tags c2t0 c2T0)).artist = ""
  ∧ (load_tags (write_tags c2t0 c2T0)).year = ""
  ∧ (load_tags (write_tags c2t0 c2T0)).cover = none := by
  have h := c2_full_replace c2t0 c2T0 (by decide)
  exact ⟨h.2.2.1 rfl, h.2.2.2.2.2.1 rfl, h.2.2.2.2.2.2.2.2 rfl⟩

/-- C4: Read returns the attached picture's bytes only when the frame has an
EMPTY description ("APIC:" key, third conjunct); the frame Write itself
produces carries description "Cover" and is NOT returned (first conjunct),
refuting the claim for the very frames the program writes. -/
theorem c4_read_cover_desc_mismatch :
    read_cover [Frame.apic "image/jpeg" 3 "Cover" [1, 2, 3]] = none
  ∧ read_cover [Frame.apic "image/jpeg" 3 "" [4, 5]] = some [4, 5]
  ∧ read_cover [] = none := by decide

def c3files : List BatchFile :=
  [{ name := "a.mp3", failsOpen := false, failsSave := false },
   { name := "b.mp3", failsOpen := false, failsSave := true },
   { name := "c.mp3", failsOpen := false, failsSave := false }]

/-- C3 counterexample: over 3 files where only the second fails to save, the
end-of-batch status line reports 3 files saved — not 2 successes and 1
failure in aggregate as the claim states. -/
theorem c3_report_not_aggregated :
    save_tags_folder c3files
      = some ([.saved "a.mp3", .saveError "b.mp3", .saved "c.mp3"], 3)
  ∧ (save_tags_folder c3files).map Prod.snd ≠ some 2 := by decide

/-- C3 (amended): with exactly one failing file K, every other file is still
processed and saved and processing continues past K through the whole list
in order, but the end-of-batch status reports the TOTAL file count as saved;
the save failure is shown in a per-file error dialog, not aggregated into
the final report. -/
theorem c3_batch_isolation (files : List BatchFile) (K : Nat)
    (hK : K < files.length)
    (hopen : ∀ i : Fin files.length, (files.get i).failsOpen = false)
    (hsave : ∀ i : Fin files.length, ((files.get i).failsSave = true ↔ i.val = K)) :
    ∀ outs n, save_tags_folder files = some (outs, n) →
      n = files.length
      ∧ outs.length = files.length
      ∧ (∀ i : Fin files.length, ∀ hi : i.val < outs.length,
          (i.val ≠ K → outs.get ⟨i.val, hi⟩ = .saved (files.get i).name)
          ∧ (i.val = K → outs.get ⟨i.val, hi⟩ = .saveError (files.get i).name)) := by
  intro outs n h
  have hne : files.isEmpty = false := by
    cases files with
    | nil => simp at hK
    | cons a as => rfl
  unfold save_tags_folder at h
  rw [hne] at h
  simp only [Bool.false_eq_true, if_false, Option.some.injEq, Prod.mk.injEq] at h
  obtain ⟨houts, hn⟩ := h
  subst houts
  subst hn
  refine ⟨rfl, List.length_map _ _, ?_⟩
  · intro i hi
    have hget : (files.map save_single_file).get ⟨i.val, hi⟩
        = save_single_file (files.get i) := by
      simp [List.get_eq_getElem, List.getElem_map]
    constructor
    · intro hiK
      have hs : (files.get i).failsSave = false := by
        rcases Bool.eq_false_or_eq_true (files.get i).failsSave with h | h
        · exact absurd ((hsave i).mp h) hiK
        · exact h
      rw [hget]
      unfold save_single_file
      rw [hopen i, hs]
      rfl
    · intro hiK
      have hs : (files.get i).failsSave = true := (hsave i).mpr hiK
      rw [hget]
      unfold save_single_file
      rw [hopen i, hs]
      rfl

/-- Witness for C3 (amended) on the concrete 3-file folder: the middle file's
outcome is the save error, its neighbours are saved. -/
theorem c3_batch_isolation_witness :
    (c3files.map save_single_file).get ⟨1, by decide⟩ = .saveError "b.mp3"
  ∧ (c3files.map save_single_file).get ⟨0, by decide⟩ = .saved "a.mp3"
  ∧ (c3files.map save_single_file).get ⟨2, by decide⟩ = .saved "c.mp3" := by
  have h := c3_batch_isolation c3files 1 (by decide) (by decide) (by decide)
    (c3files.map save_single_file) c3files.length rfl
  exact ⟨(h.2.2 ⟨1, by decide⟩ (by decide)).2 rfl,
    (h.2.2 ⟨0, by decide⟩ (by decide)).1 (by decide),
    (h.2.2 ⟨2, by decide⟩ (by decide)).1 (by decide)⟩

theorem extractYear_of_digits (cs : List Char)
    (hlen : (cs.take 4).length = 4)
    (hdig : ∀ c ∈ cs.take 4, c.isDigit = true) :
    extractYear (String.mk cs) = String.mk (cs.take 4) := by
  match cs with
  | [] => simp [List.take] at hlen
  | [a] => simp [List.take] at hlen
  | [a, b] => simp [List.take] at hlen
  | [a, b, c] => simp [List.take] at hlen
  | a :: b :: c :: d :: rest =>
    have ha := hdig a (by simp [List.take])
    have hb := hdig b (by simp [List.take])
    have hc := hdig c (by simp [List.take])
    have hd := hdig d (by simp [List.take])
    simp [extractYear, year4?, ha, hb, hc, hd, List.take]

theorem extractYear_of_no_digits (cs : List Char)
    (h : (cs.take 4).length ≠ 4 ∨ ¬ ∀ c ∈ cs.take 4, c.isDigit = true) :
    extractYear (String.mk cs) = String.mk cs := by
  match cs with
  | [] => rfl
  | [a] => rfl
  | [a, b] => rfl
  | [a, b, c] => rfl
  | a :: b :: c :: d :: rest =>
    rcases h with h | h
    · exact absurd (by simp [List.take]) h
    · by_cases hcond : (a.isDigit && b.isDigit && c.isDigit && d.isDigit) = true
      · refine absurd ?_ h
        rw [Bool.and_eq_true, Bool.and_eq_true, Bool.and_eq_true] at hcond
        intro x hx
        simp [List.take] at hx
        rcases hx with rfl | rfl | rfl | rfl
        · exact hcond.1.1.1
        · exact hcond.1.1.2
        · exact hcond.1.2
        · exact hcond.2
      · have hcond2 : (a.isDigit && b.isDigit && c.isDigit && d.isDigit) = false := by
          simpa using hcond
        simp [extractYear, year4?, hcond2]

/-- C5: Read's year extraction keeps the leading four digits when the stored
value begins with four digits, and otherwise returns the raw value
unchanged; the spec's three examples hold, and this is exactly what
`get_tag` applies to a stored TDRC frame. -/
theorem c5_year_extraction (raw : String) :
    ((raw.data.take 4).length = 4 → (∀ c ∈ raw.data.take 4, c.isDigit = true) →
        extractYear raw = String.mk (raw.data.take 4))
  ∧ (((raw.data.take 4).length ≠ 4 ∨ ¬ ∀ c ∈ raw.data.take 4, c.isDigit = true) →
        extractYear raw = raw)
  ∧ extractYear "2003-05-12" = "2003"
  ∧ extractYear "2003" = "2003"
  ∧ extractYear "circa 2003" = "circa 2003"
  ∧ ∀ v, get_tag [Frame.text "TDRC" v] "TDRC" = extractYear v := by
  obtain ⟨cs⟩ := raw
  exact ⟨fun hlen hdig => extractYear_of_digits cs hlen hdig,
    fun h => extractYear_of_no_digits cs h,
    by decide, by decide, by decide, fun v => rfl⟩

/-- Witness for C5: the two guarded branches applied at "2003-05-12" and
"circa 2003". -/
theorem c5_year_extraction_witness :
    (extractYear "2003-05-12" = String.mk ("2003-05-12".data.take 4)
      ∧ String.mk ("2003-05-12".data.take 4) = "2003")
  ∧ extractYear "circa 2003" = "circa 2003" :=
  ⟨⟨(c5_year_extraction "2003-05-12").1 (by decide) (by decide), by decide⟩,
    (c5_year_extraction "circa 2003").2.1 (Or.inr (by decide))⟩

theorem findSplit_of_first (l r : List Char)
    (hfirst : ∀ k, k < l.length →
      sepChars.isPrefixOf ((l ++ sepChars ++ r).drop k) = false) :
    findSplit (l ++ sepChars ++ r) = some (l, r) := by
  induction l with
  | nil =>
    show findSplit (' ' :: '-' :: ' ' :: r) = some ([], r)
    simp [findSplit, sepChars, List.isPrefixOf]
  | cons c cl ih =>
    have h0 := hfirst 0 (by simp)
    rw [List.drop_zero] at h0
    have hr : findSplit (cl ++ sepChars ++ r) = some (cl, r) := by
      apply ih
      intro k hk
      have hk2 := hfirst (k + 1) (by simpa using Nat.succ_lt_succ hk)
      simpa [List.cons_append] using hk2
    have h0c : sepChars.isPrefixOf (c :: (cl ++ sepChars ++ r)) = false := by
      simpa [List.cons_append] using h0
    show (if sepChars.isPrefixOf (c :: (cl ++ sepChars ++ r))
        then some (([] : List Char), (cl ++ sepChars ++ r).drop 2)
        else
          match findSplit (cl ++ sepChars ++ r) with
          | some (l, r) => some (c :: l, r)
          | none => none) = some (c :: cl, r)
    rw [if_neg (fun hp => Bool.false_ne_true (h0c.symm.trans hp)), hr]

theorem findSplit_of_no_sep (cs : List Char)
    (h : ∀ k, k < cs.length → sepChars.isPrefixOf (cs.drop k) = false) :
    findSplit cs = none := by
  induction cs with
  | nil => rfl
  | cons c rest ih =>
    have h0 := h 0 (by simp)
    rw [List.drop_zero] at h0
    have hr : findSplit rest = none := by
      apply ih
      intro k hk
      have hk2 := h (k + 1) (by simpa using Nat.succ_lt_succ hk)
      simpa using hk2
    simp [findSplit, h0, hr]

/-- C6 (amended): the extension-stripped basename is split at the FIRST
occurrence of " - "; the left part and the remainder are whitespace-STRIPPED
before becoming artist and title; with no occurrence the artist is empty and
the whole basename is the title. -/
theorem c6_parse_filename (p : String) :
    (∀ l r, stripExt (basename p).data = l ++ sepChars ++ r →
        (∀ k, k < l.length →
          sepChars.isPrefixOf ((l ++ sepChars ++ r).drop k) = false) →
        parse_filename p = (String.mk (pyStrip l), String.mk (pyStrip r)))
  ∧ ((∀ k, k < (stripExt (basename p).data).length →
        sepChars.isPrefixOf ((stripExt (basename p).data).drop k) = false) →
      parse_filename p = ("", String.mk (stripExt (basename p).data))) := by
  constructor
  · intro l r hsplit hfirst
    simp only [parse_filename]
    rw [hsplit, findSplit_of_first l r hfirst]
  · intro h
    simp only [parse_filename]
    rw [findSplit_of_no_sep _ h]

/-- C6 counterexample: for basename "A  - B" the first " - " occurrence
splits into left part "A " (with a trailing space) and remainder "B", but
the parse returns the STRIPPED pair ("A", "B"), not ("A ", "B") as the
claim's verbatim-left-part reading states. -/
theorem c6_strip_counterexample :
    parse_filename "A  - B.mp3" = ("A", "B")
  ∧ parse_filename "A  - B.mp3" ≠ ("A ", "B") := by decide

/-- Witness for C6 (amended) at "A - B - C.mp3": split on the first " - "
only. -/
theorem c6_parse_filename_witness :
    parse_filename "A - B - C.mp3" = ("A", "B - C")
  ∧ parse_filename "JustATitle.mp3" = ("", "JustATitle") := by
  constructor
  · exact ((c6_parse_filename "A - B - C.mp3").1
      ['A'] ['B', ' ', '-', ' ', 'C'] (by decide) (by decide)).trans (by decide)
  · exact ((c6_parse_filename "JustATitle.mp3").2 (by decide)).trans (by decide)

/-- C7: whenever the current target is a folder (a non-empty folder path is
set), the cover-art fetch returns the distinct folder-mode outcome and
issues zero network requests, whatever the fields and the network would
answer. -/
theorem c7_folder_mode (f : String) (hf : f ≠ "") (artist album : String)
    (sr : RelResp) (cr : CoverResp) :
    fetch_album_art (some f) artist album sr cr = (.folderMode, 0) := by
  have ht : truthy (some f) = true := by simp [truthy, hf]
  simp [fetch_album_art, ht]

/-- Witness for C7 at a folder target with a network that would answer. -/
theorem c7_folder_mode_witness :
    fetch_album_art (some "/music") "Artist" "Album" (.ok ["id"])
      (.status 200 [1, 2]) = (.folderMode, 0) :=
  c7_folder_mode "/music" (by decide) "Artist" "Album" _ _

/-- C8: a recording search answering zero recordings yields NoMatch; a
release search answering zero releases yields NotFound; a cover fetch with a
non-200 status yields the no-art outcome; each after exactly the requests
issued so far, and all three are distinct from the error outcome. -/
theorem c8_empty_results (f artist0 title0 album0 year0 track0 : String)
    (hf : f ≠ "")
    (hq1 : (resolveQuery f artist0 title0).1 ≠ "")
    (hq2 : (resolveQuery f artist0 title0).2 ≠ "")
    (artist album : String)
    (ha : pyStripStr artist ≠ "") (hb : pyStripStr album ≠ "")
    (relId : String) (rest : List String) (code : Nat) (hc : code ≠ 200)
    (body : List Nat) (cr : CoverResp) :
    auto_fetch_info (some f) artist0 title0 album0 year0 track0 (.ok [])
      = (.noMatch, 1)
  ∧ fetch_album_art none artist album (.ok []) cr = (.notFoundRelease, 1)
  ∧ fetch_album_art none artist album (.ok (relId :: rest))
      (.status code body) = (.noArt, 2)
  ∧ (∀ m, (FetchInfoOutcome.noMatch : FetchInfoOutcome) ≠ .fetchError m)
  ∧ (∀ m, (ArtOutcome.notFoundRelease : ArtOutcome) ≠ .fetchError m)
  ∧ (∀ m, (ArtOutcome.noArt : ArtOutcome) ≠ .fetchError m) := by
  have ht : truthy (some f) = true := by simp [truthy, hf]
  have h1 : ((resolveQuery f artist0 title0).1 == "") = false :=
    beq_eq_false_iff_ne.mpr hq1
  have h2 : ((resolveQuery f artist0 title0).2 == "") = false :=
    beq_eq_false_iff_ne.mpr hq2
  have hA : (pyStripStr artist == "") = false := beq_eq_false_iff_ne.mpr ha
  have hB : (pyStripStr album == "") = false := beq_eq_false_iff_ne.mpr hb
  have hC : (code == 200) = false := beq_eq_false_iff_ne.mpr hc
  refine ⟨?_, ?_, ?_, fun m h => FetchInfoOutcome.noConfusion h,
    fun m h => ArtOutcome.noConfusion h, fun m h => ArtOutcome.noConfusion h⟩
  · simp [auto_fetch_info, ht, h1, h2]
  · simp [fetch_album_art, truthy, hA, hB]
  · simp [fetch_album_art, truthy, hA, hB, hC]

/-- Witness for C8 at concrete empty responses. -/
theorem c8_empty_results_witness :
    auto_fetch_info (some "x.mp3") "Artist" "Title" "al" "y" "tr" (.ok [])
      = (.noMatch, 1)
  ∧ fetch_album_art none "Artist" "Album" (.ok []) (.err "e")
      = (.notFoundRelease, 1)
  ∧ fetch_album_art none "Artist" "Album" (.ok ["id"]) (.status 404 [])
      = (.noArt, 2) := by
  have h := c8_empty_results "x.mp3" "Artist" "Title" "al" "y" "tr"
    (by decide) (by decide) (by decide) "Artist" "Album" (by decide)
    (by decide) "id" [] 404 (by decide) [] (.err "e")
  exact ⟨h.1, h.2.1, h.2.2.1⟩

/-- C9: selecting ID3v1 (index 0) saves with the legacy-tag flag on AND the
modern revision forced to 3 (legacy-only output is never produced: the
modern revision argument is always 3 or 4); selecting v2.3 / v2.4 saves with
the legacy flag off and revision 3 / 4 respectively. -/
theorem c9_version_flags :
    saveVersionArgs (on_id3_version_change 0) = (1, 3)
  ∧ saveVersionArgs (on_id3_version_change 1) = (0, 3)
  ∧ saveVersionArgs (on_id3_version_change 2) = (0, 4)
  ∧ ∀ i : Fin 3, (saveVersionArgs (on_id3_version_change i)).2 = 3
      ∨ (saveVersionArgs (on_id3_version_change i)).2 = 4 := by decide

/-- C10: a successful lookup writes the pre-lookup track value back
unchanged; when the top recording has no releases the album and year keep
their pre-lookup values; a missing or unparseable first-release date keeps
the year; and `auto_fetch_info` indeed applies exactly this update on a
non-empty recording list. -/
theorem c10_lookup_preserves (artist album0 year0 track0 : String)
    (rec : MBRecording) :
    (applyRecording artist album0 year0 track0 rec).track = track0
  ∧ (rec.releases = [] →
      (applyRecording artist album0 year0 track0 rec).album = album0
      ∧ (applyRecording artist album0 year0 track0 rec).year = year0)
  ∧ (∀ rel rest, rec.releases = rel :: rest → rel.rdate = none →
      (applyRecording artist album0 year0 track0 rec).year = year0)
  ∧ (∀ rel rest d, rec.releases = rel :: rest → rel.rdate = some d →
      year4? d = none →
      (applyRecording artist album0 year0 track0 rec).year = year0)
  ∧ (∀ f a0 t0 rest2, f ≠ "" → (resolveQuery f a0 t0).1 ≠ "" →
      (resolveQuery f a0 t0).2 ≠ "" →
      auto_fetch_info (some f) a0 t0 album0 year0 track0 (.ok (rec :: rest2))
        = (.updated (applyRecording (resolveQuery f a0 t0).1 album0 year0
            track0 rec), 1)) := by
  refine ⟨?_, ?_, ?_, ?_, ?_⟩
  · cases hrel : rec.releases with
    | nil => simp [applyRecording, hrel]
    | cons rel rest => simp [applyRecording, hrel]
  · intro hrel
    constructor <;> simp [applyRecording, hrel]
  · intro rel rest hrel hdate
    simp [applyRecording, hrel, hdate]
  · intro rel rest d hrel hdate hy4
    simp [applyRecording, hrel, hdate, hy4]
  · intro f a0 t0 rest2 hf hq1 hq2
    have ht : truthy (some f) = true := by simp [truthy, hf]
    have h1 : ((resolveQuery f a0 t0).1 == "") = false :=
      beq_eq_false_iff_ne.mpr hq1
    have h2 : ((resolveQuery f a0 t0).2 == "") = false :=
      beq_eq_false_iff_ne.mpr hq2
    simp [auto_fetch_info, ht, h1, h2]

/-- Witness for C10 at a recording with one release lacking a parseable date
and another with no releases. -/
theorem c10_lookup_preserves_witness :
    (applyRecording "A" "Al" "Y" "Tr" ⟨["MB"], "T", []⟩).album = "Al"
  ∧ (applyRecording "A" "Al" "Y" "Tr" ⟨["MB"], "T", []⟩).year = "Y"
  ∧ (applyRecording "A" "Al" "Y" "Tr"
      ⟨["MB"], "T", [⟨some "NewAlbum", some "circa 2003"⟩]⟩).year = "Y"
  ∧ (applyRecording "A" "Al" "Y" "Tr"
      ⟨["MB"], "T", [⟨some "NewAlbum", some "circa 2003"⟩]⟩).track = "Tr"
  ∧ auto_fetch_info (some "x.mp3") "A" "T" "Al" "Y" "Tr"
      (.ok [⟨["MB"], "T", []⟩])
      = (.updated (applyRecording (resolveQuery "x.mp3" "A" "T").1 "Al" "Y"
          "Tr" ⟨["MB"], "T", []⟩), 1) := by
  have h1 := c10_lookup_preserves "A" "Al" "Y" "Tr" ⟨["MB"], "T", []⟩
  have h2 := c10_lookup_preserves "A" "Al" "Y" "Tr"
    ⟨["MB"], "T", [⟨some "NewAlbum", some "circa 2003"⟩]⟩
  exact ⟨(h1.2.1 rfl).1, (h1.2.1 rfl).2,
    h2.2.2.2.1 ⟨some "NewAlbum", some "circa 2003"⟩ [] "circa 2003" rfl rfl
      (by decide),
    h2.1,
    h1.2.2.2.2 "x.mp3" "A" "T" [] (by decide) (by decide) (by decide)⟩

end AutoTagger
